import Mathlib

/-!
Verification of the grid inference worker core (src/inference_worker),
shallowly embedded in Lean.  Times, rewards and sleep durations are
rationals; HTTP interactions are abstracted as environment functions
supplying, per attempt, the observed elapsed time and the backend's
response.  Each definition mirrors one Python function of the source.
-/

/-- The fixed AIPG context block (worker.py, AIPG_CONTEXT). -/
def AIPG_CONTEXT : String :=
"AI Power Grid (AIPG) is a distributed network for AI workloads with native cryptocurrency incentives. Key points:

- Platform: Distributed AI compute network built on AI Horde with workflow engine
- Tokenomics: 150M max supply
- Network: P2P port 8865, RPC port 9788, PoW/PoUW consensus
- Links: aipowergrid.io, explorer.aipowergrid.io, pool.aipowergrid.io
- Social: @AIPowerGrid (Twitter), t.me/AIPowerGrid (Telegram)
- Meet founder: https://calendly.com/half-aipowergrid/30min"

/-- Trigger terms (worker.py, AIPG_TERMS). -/
def AIPG_TERMS : List String := ["aipg", "ai power grid", "aipowergrid"]

/-- The specialized system prompt chosen when a trigger term occurs. -/
def aipgSystemPrompt : String :=
"You are a helpful assistant with expertise in AI Power Grid (AIPG). Provide concise, accurate information about the platform."

/-- The generic system prompt. -/
def genericSystemPrompt : String := "You are a helpful assistant."

/-- Substring test, mirroring the Python operator `needle in hay`. -/
def strContains (hay needle : String) : Bool :=
  decide (List.IsInfix needle.toList hay.toList)

/-- Per-character lower-casing, modelling the str.lower() calls of the
source (the strings compared are ASCII). -/
def strLower (s : String) : String := ⟨s.data.map Char.toLower⟩

/-- A grid job payload: the dict fields read by the worker; `none` models
an absent key. -/
structure JobPayload where
  prompt : Option String
  maxLength : Option Nat
  temperature : Option ℚ
  topP : Option ℚ
  stopSequence : Option String
  frequencyPenalty : Option ℚ
  presencePenalty : Option ℚ

/-- Payload with every optional key absent. -/
def JobPayload.empty : JobPayload := ⟨none, none, none, none, none, none, none⟩

/-- max_tokens = int(payload.get("max_length", 80)) (worker.py line 160/266). -/
def payloadMaxTokens (p : JobPayload) : Nat := p.maxLength.getD 80

/-- One chat message of the OpenAI-style request. -/
structure ChatMessage where
  role : String
  content : String
deriving DecidableEq

/-- The chat-completions request built by the transformer
(worker.py, TextWorker._transform_payload). -/
structure OpenAIPayload where
  model : String
  messages : List ChatMessage
  maxTokens : Nat
  temperature : ℚ
  topP : ℚ
  stop : Option String
  frequencyPenalty : Option ℚ
  presencePenalty : Option ℚ
deriving DecidableEq

/-- has_aipg = any(term in prompt.lower() for term in AIPG_TERMS)
(worker.py line 164). -/
def hasAipgTrigger (prompt : String) : Bool :=
  AIPG_TERMS.any (fun term => strContains (strLower prompt) term)

/-- TextWorker._transform_payload (worker.py lines 158-189). -/
def transformPayload (modelName : String) (payload : JobPayload) : OpenAIPayload :=
  let prompt := payload.prompt.getD ""
  let maxTokens := payloadMaxTokens payload
  let temperature := payload.temperature.getD (8 / 10)
  let topP := payload.topP.getD (9 / 10)
  let hasAipg := hasAipgTrigger prompt
  let systemPrompt := if hasAipg then aipgSystemPrompt else genericSystemPrompt
  let prompt2 := if hasAipg then AIPG_CONTEXT ++ "\n\nUser Query: " ++ prompt else prompt
  { model := modelName
    messages := [⟨"system", systemPrompt⟩, ⟨"user", prompt2⟩]
    maxTokens := maxTokens
    temperature := temperature
    topP := topP
    stop := payload.stopSequence
    frequencyPenalty := payload.frequencyPenalty
    presencePenalty := payload.presencePenalty }

/-- TextWorker._stale_timeout: (max_tokens / 2) + 10 seconds
(worker.py lines 154-156). -/
def staleTimeout (maxTokens : Nat) : ℚ := (maxTokens : ℚ) / 2 + 10

/-- A backend response to one chat-completions POST.  `success msg` is an
HTTP 200 body: `msg = some s` when the body has a nonempty choices list
whose first choice carries a message (s is its content, defaulted to "");
`msg = none` when no text is extractable.  `status c` is any non-200
status code; the remaining constructors are the two caught exceptions. -/
inductive BackendResp where
  | success (msg : Option String)
  | status (code : Nat)
  | connError
  | readTimeout

/-- Result of the inference retry loop: the accumulated text, the faulted
flag, the number of POSTs performed, and whether the loop was aborted by
the stale deadline. -/
structure InferResult where
  text : String
  faulted : Bool
  attempts : Nat
  staleAborted : Bool
deriving DecidableEq

/-- The retry loop of TextWorker.process_once (worker.py lines 275-317).
`env k` supplies, for the k-th POST, the elapsed time observed at the top
of that loop iteration and the backend's response.  `fuel` is the number
of loop iterations still allowed (5 - retries); `attempts` counts POSTs
made so far and `text` is the accumulated text. -/
def inferLoopAux (stale : ℚ) (env : Nat → ℚ × BackendResp) :
    Nat → Nat → String → InferResult
  | 0, attempts, text => ⟨text, false, attempts, false⟩
  | fuel + 1, attempts, text =>
    if stale < (env attempts).1 then ⟨text, false, attempts, true⟩
    else
      match (env attempts).2 with
      | .success msg => ⟨msg.getD text, false, attempts + 1, false⟩
      | .status code =>
        if code = 422 then ⟨text, true, attempts + 1, false⟩
        else if code = 429 then inferLoopAux stale env fuel (attempts + 1) text
        else if 500 ≤ code then inferLoopAux stale env fuel (attempts + 1) text
        else ⟨text, true, attempts + 1, false⟩
      | .connError => inferLoopAux stale env fuel (attempts + 1) text
      | .readTimeout => inferLoopAux stale env fuel (attempts + 1) text

/-- The full retry loop: text = "", retries = 0 at entry, at most 5
iterations (while retries < 5). -/
def inferRun (stale : ℚ) (env : Nat → ℚ × BackendResp) : InferResult :=
  inferLoopAux stale env 5 0 ""

example : inferRun 60 (fun _ => (0, .status 500)) = ⟨"", false, 5, false⟩ := by decide
example : inferRun 60 (fun _ => (61, .status 500)) = ⟨"", false, 0, true⟩ := by decide
example : inferRun 60 (fun _ => (0, .success (some "Hi there"))) =
    ⟨"Hi there", false, 1, false⟩ := by decide

/-- Reward body parsed from a 200 submit response; `reward` is the
optional "reward" field. -/
structure RewardInfo where
  reward : Option ℚ
deriving DecidableEq

/-- Outcome of the pop call in process_once: a job, an id-less body,
or one of the three exception classes handled (worker.py lines 240-258). -/
inductive PopResult where
  | job (id : String) (payload : JobPayload)
  | noJob
  | connError
  | readTimeout
  | otherError

/-- Outcome of api.submit_result as seen by process_once: a returned
value (a parsed dict, or None when the client exhausted its loop) or a
raised exception. -/
inductive SubmitOutcome where
  | value (result : Option RewardInfo)
  | exn

/-- The submit dict built by process_once (worker.py lines 321-327);
`state = none` models the absence of the "state" key. -/
structure SubmitPayload where
  id : String
  generation : String
  seed : Nat
  state : Option String
deriving DecidableEq

/-- Mutable counters of TextWorker relevant to the cycle. -/
structure WorkerState where
  consecutiveFailures : Nat
  popFailures : Nat
deriving DecidableEq

/-- Whether the processed cycle counts as failed (worker.py lines
331-349): a submit exception, or a faulted or empty outcome. -/
def cycleFailed (r : InferResult) (sub : SubmitOutcome) : Bool :=
  match sub with
  | .exn => true
  | .value _ => r.faulted || r.text == ""

/-- Observable result of one TextWorker.process_once call: the updated
counters, the boolean return value, the sleeps performed by process_once
itself (pop backoff and cooldown; the retry-loop sleeps are abstracted
into the elapsed times of `env`), and the submitted payload, if any. -/
structure CycleResult where
  state : WorkerState
  processed : Bool
  sleeps : List ℚ
  submitted : Option SubmitPayload

/-- TextWorker.process_once (worker.py lines 238-357).  `env` drives the
inference retry loop; `sub` is the outcome of the submit call. -/
def processOnce (s : WorkerState) (pop : PopResult) (env : Nat → ℚ × BackendResp)
    (sub : SubmitOutcome) : CycleResult :=
  match pop with
  | .connError =>
    let pf := s.popFailures + 1
    { state := { s with popFailures := pf }, processed := false
      sleeps := [min 10 (2 * (pf : ℚ))], submitted := none }
  | .readTimeout =>
    { state := s, processed := false, sleeps := [2], submitted := none }
  | .otherError =>
    { state := { s with popFailures := s.popFailures + 1 }, processed := false
      sleeps := [5], submitted := none }
  | .noJob =>
    { state := { s with popFailures := 0 }, processed := false
      sleeps := [], submitted := none }
  | .job id payload =>
    let maxTokens := payloadMaxTokens payload
    let r := inferRun (staleTimeout maxTokens) env
    let sp : SubmitPayload :=
      { id := id, generation := r.text, seed := 0
        state := if r.faulted then some "faulted" else none }
    let cf := if cycleFailed r sub then s.consecutiveFailures + 1 else 0
    if 5 ≤ cf then
      { state := { consecutiveFailures := 0, popFailures := 0 }, processed := true
        sleeps := [30], submitted := some sp }
    else
      { state := { consecutiveFailures := cf, popFailures := 0 }, processed := true
        sleeps := [], submitted := some sp }

/-- WorkerStats state (worker.py lines 28-52): the rolling (kudos,
timestamp) log, oldest first, plus cumulative counters. -/
structure WorkerStats where
  kudosRecord : List (ℚ × ℚ)
  jobsCompleted : Nat
  jobsFailed : Nat
  totalTokens : Nat
  totalKudos : ℚ
  lastJobTime : Option ℚ
  lastJobKudos : ℚ

/-- A fresh WorkerStats instance. -/
def WorkerStats.init : WorkerStats := ⟨[], 0, 0, 0, 0, none, 0⟩

/-- WorkerStats.record_job (worker.py lines 41-52): append the entry,
bump the totals, then prune entries older than one hour from the head. -/
def recordJob (s : WorkerStats) (now kudos : ℚ) (tokens : Nat) : WorkerStats :=
  let record := s.kudosRecord ++ [(kudos, now)]
  { kudosRecord := record.dropWhile (fun e => decide (e.2 < now - 3600))
    jobsCompleted := s.jobsCompleted + 1
    jobsFailed := s.jobsFailed
    totalTokens := s.totalTokens + tokens
    totalKudos := s.totalKudos + kudos
    lastJobTime := some now
    lastJobKudos := kudos }

/-- WorkerStats.record_failure (worker.py lines 54-55). -/
def recordFailure (s : WorkerStats) : WorkerStats :=
  { s with jobsFailed := s.jobsFailed + 1 }

/-- WorkerStats.kudos_per_hour (worker.py lines 57-67), with the query
time `now` made explicit. -/
def kudosPerHour (s : WorkerStats) (now : ℚ) : ℚ :=
  if s.kudosRecord.length < 2 then 0
  else
    match s.kudosRecord with
    | [] => 0
    | (_, oldest) :: _ =>
      let period := now - oldest
      if period < 10 then 0
      else (s.kudosRecord.map Prod.fst).sum * (3600 / period)

/-- WorkerStats.jobs_per_hour (worker.py lines 69-78). -/
def jobsPerHour (s : WorkerStats) (now : ℚ) : ℚ :=
  if s.kudosRecord.length < 2 then 0
  else
    match s.kudosRecord with
    | [] => 0
    | (_, oldest) :: _ =>
      let period := now - oldest
      if period < 10 then 0
      else (s.kudosRecord.length : ℚ) * (3600 / period)

/-- Response of one submit POST (api_client.py lines 58-60): an HTTP
status with its parsed body, or one of the three exception classes
caught by the retry loop. -/
inductive SubmitAttemptResp where
  | http (code : Nat) (body : RewardInfo)
  | connError
  | readTimeout
  | writeTimeout

/-- An error surfaced by submit_result: the HTTPStatusError raised by
raise_for_status on a non-2xx code, or a re-raised network exception. -/
inductive SubmitError where
  | httpStatus (code : Nat)
  | connError
  | readTimeout
  | writeTimeout
deriving DecidableEq

/-- Whether a submit attempt ended in one of the caught network
exception classes. -/
def isNetError : SubmitAttemptResp → Bool
  | .http _ _ => false
  | _ => true

/-- Observable run of APIClient.submit_result: the returned value or the
raised error, the number of POSTs made, and the backoff sleeps in
order. -/
structure SubmitRun where
  result : Except SubmitError (Option RewardInfo)
  attempts : Nat
  sleeps : List ℚ

/-- The retry loop of APIClient.submit_result (api_client.py lines
52-74).  `env k` is the outcome of the (k+1)-th POST; `fuel` is the
number of loop iterations remaining (3 - attempt), `attempts` doubles as
the 0-based loop index.  A 200 response returns the parsed body; any
other status goes through raise_for_status, which raises for non-2xx
codes only, so a 2xx non-200 response just falls to the next iteration;
a caught network exception sleeps 3·(attempt+1) and retries while
attempt < 2, else re-raises.  Falling off the loop returns None. -/
def submitResultAux (env : Nat → SubmitAttemptResp) :
    Nat → Nat → List ℚ → SubmitRun
  | 0, attempts, sleeps => ⟨.ok none, attempts, sleeps⟩
  | fuel + 1, attempts, sleeps =>
    match env attempts with
    | .http code body =>
      if code = 200 then ⟨.ok (some body), attempts + 1, sleeps⟩
      else if 200 ≤ code ∧ code ≤ 299 then
        submitResultAux env fuel (attempts + 1) sleeps
      else ⟨.error (.httpStatus code), attempts + 1, sleeps⟩
    | .connError =>
      if attempts < 2 then
        submitResultAux env fuel (attempts + 1) (sleeps ++ [3 * ((attempts : ℚ) + 1)])
      else ⟨.error .connError, attempts + 1, sleeps⟩
    | .readTimeout =>
      if attempts < 2 then
        submitResultAux env fuel (attempts + 1) (sleeps ++ [3 * ((attempts : ℚ) + 1)])
      else ⟨.error .readTimeout, attempts + 1, sleeps⟩
    | .writeTimeout =>
      if attempts < 2 then
        submitResultAux env fuel (attempts + 1) (sleeps ++ [3 * ((attempts : ℚ) + 1)])
      else ⟨.error .writeTimeout, attempts + 1, sleeps⟩

/-- APIClient.submit_result: for attempt in range(3), starting with no
sleeps performed. -/
def submitResult (env : Nat → SubmitAttemptResp) : SubmitRun :=
  submitResultAux env 3 0 []

example : submitResult (fun _ => .http 200 ⟨some 5⟩) = ⟨.ok (some ⟨some 5⟩), 1, []⟩ := rfl
example : submitResult (fun _ => .http 404 ⟨none⟩) = ⟨.error (.httpStatus 404), 1, []⟩ := rfl
example : submitResult (fun _ => .http 201 ⟨none⟩) = ⟨.ok none, 3, []⟩ := rfl
example : submitResult (fun _ => .connError) = ⟨.error .connError, 3, [3, 6]⟩ := by
  show SubmitRun.mk (.error .connError) 3 [3 * ((0 : ℚ) + 1), 3 * ((1 : ℚ) + 1)] =
    ⟨.error .connError, 3, [3, 6]⟩
  norm_num

/-- A parsed JSON body returned by _probe_url, restricted to the fields
the port-8000 identification reads: dict truthiness, the "version" and
"model_path" fields, and the "data" list with each element's "id"
field. -/
structure ProbeBody where
  truthy : Bool
  version : Option String
  modelPath : Option String
  dataField : Option (List (Option String))
deriving DecidableEq

/-- _extract_models_openai (detect_backends.py lines 132-139): collect
the nonempty "id" of each element of "data" (a missing id defaults to
""). -/
def extractModelsOpenai (body : ProbeBody) : List String :=
  (body.dataField.getD []).filterMap
    (fun m => let mid := m.getD ""; if mid = "" then none else some mid)

/-- A detected backend (detect_backends.py, DetectedBackend). -/
structure DetectedBackend where
  engine : String
  name : String
  url : String
  models : List String
  version : Option String
  apiType : String
deriving DecidableEq

/-- _identify_engine_from_headers (detect_backends.py lines 142-150);
the argument is the "server" header value, if present. -/
def identifyEngineFromHeaders (server : Option String) : Option String :=
  let s := strLower (server.getD "")
  if strContains s "vllm" then some "vllm"
  else if strContains s "uvicorn" then none
  else none

/-- Environment for _identify_port_8000: each field is the outcome of a
probe the function may perform.  An outer `none` is a failed probe (non
200 status or an exception); `headersResult` is the "server" header of
the extra GET /v1/models issued on the generic path (outer none when
that request raised, inner none when the header is absent). -/
structure Port8000Env where
  versionResp : Option ProbeBody
  modelInfoResp : Option ProbeBody
  modelsResp : Option ProbeBody
  headersResult : Option (Option String)

/-- The /version probe identified vLLM: a 200 JSON body that is truthy
and has a "version" field (detect_backends.py line 210). -/
def versionIdentifies (e : Port8000Env) : Bool :=
  match e.versionResp with
  | some d => d.truthy && d.version.isSome
  | none => false

/-- The /get_model_info probe identified SGLang: a truthy 200 JSON body
with a "model_path" field (detect_backends.py line 222). -/
def modelInfoIdentifies (e : Port8000Env) : Bool :=
  match e.modelInfoResp with
  | some d => d.truthy && d.modelPath.isSome
  | none => false

/-- The vLLM backend built on the /version branch (detect_backends.py
lines 211-218): version from the /version body, models from a follow-up
/v1/models probe when that returns a truthy body. -/
def vllmBackend (url : String) (e : Port8000Env) : DetectedBackend :=
  { engine := "vllm", name := "vLLM", url := url, apiType := "openai"
    version := match e.versionResp with | some d => d.version | none => none
    models := match e.modelsResp with
      | some md => if md.truthy then extractModelsOpenai md else []
      | none => [] }

/-- The SGLang backend built on the /get_model_info branch
(detect_backends.py lines 223-227). -/
def sglangBackend (url : String) (e : Port8000Env) : DetectedBackend :=
  { engine := "sglang", name := "SGLang", url := url, apiType := "openai"
    version := none
    models := match e.modelInfoResp with
      | some d => d.modelPath.toList
      | none => [] }

/-- The generic OpenAI-compatible fallback (detect_backends.py lines
230-248): requires a truthy /v1/models body; a second request reads the
response headers for an engine hint. -/
def genericResult (url : String) (e : Port8000Env) : Option DetectedBackend :=
  match e.modelsResp with
  | some d =>
    if d.truthy then
      let hint := match e.headersResult with
        | some h => identifyEngineFromHeaders h
        | none => none
      some { engine := hint.getD "openai-compat"
             name := match hint with
               | some h => h.toUpper
               | none => "OpenAI-compatible"
             url := url, apiType := "openai"
             version := none, models := extractModelsOpenai d }
    else none
  | none => none

/-- _identify_port_8000 (detect_backends.py lines 204-248): try the
vLLM-unique /version endpoint, then the SGLang-unique /get_model_info
endpoint, and only then the generic OpenAI-compatible /v1/models
check. -/
def identifyPort8000 (url : String) (e : Port8000Env) : Option DetectedBackend :=
  if versionIdentifies e then some (vllmBackend url e)
  else if modelInfoIdentifies e then some (sglangBackend url e)
  else genericResult url e

example :
    identifyPort8000 "http://127.0.0.1:8000"
      ⟨some ⟨true, some "0.6.2", none, none⟩, none, none, none⟩ =
    some ⟨"vllm", "vLLM", "http://127.0.0.1:8000", [], some "0.6.2", "openai"⟩ := by
  decide

/-! Helper lemmas about the retry loops. -/

/-- A loop iteration within budget that sees a retryable status (429 or
5xx) recurses with one more attempt made. -/
lemma inferLoopAux_step_retryStatus (stale : ℚ) (env : Nat → ℚ × BackendResp)
    (fuel attempts : Nat) (text : String) (code : Nat)
    (h1 : (env attempts).1 ≤ stale) (h2 : (env attempts).2 = .status code)
    (h3 : code = 429 ∨ 500 ≤ code) :
    inferLoopAux stale env (fuel + 1) attempts text =
      inferLoopAux stale env fuel (attempts + 1) text := by
  rw [inferLoopAux, if_neg (not_lt.mpr h1), h2]
  have h422 : code ≠ 422 := by omega
  rcases h3 with h3 | h3
  · subst h3; simp
  · have h429 : code ≠ 429 := by omega
    simp [h422, h429, h3]

/-- Every attempt the loop starts was started with elapsed time within
the stale budget. -/
lemma inferLoopAux_elapsed_le (stale : ℚ) (env : Nat → ℚ × BackendResp) :
    ∀ (fuel attempts : Nat) (text : String) (k : Nat), attempts ≤ k →
      k < (inferLoopAux stale env fuel attempts text).attempts →
      (env k).1 ≤ stale := by
  intro fuel
  induction fuel with
  | zero =>
    intro attempts text k hak hk
    rw [inferLoopAux] at hk
    simp only [] at hk
    omega
  | succ fuel ih =>
    intro attempts text k hak hk
    rw [inferLoopAux] at hk
    by_cases hst : stale < (env attempts).1
    · rw [if_pos hst] at hk
      simp only [] at hk
      omega
    · rw [if_neg hst] at hk
      have hle : (env attempts).1 ≤ stale := le_of_not_lt hst
      rcases Nat.eq_or_lt_of_le hak with rfl | hlt
      · exact hle
      · split at hk
        · simp only [] at hk; omega
        · split at hk
          · simp only [] at hk; omega
          · split at hk
            · exact ih (attempts + 1) text k hlt hk
            · split at hk
              · exact ih (attempts + 1) text k hlt hk
              · simp only [] at hk; omega
        · exact ih (attempts + 1) text k hlt hk
        · exact ih (attempts + 1) text k hlt hk

/-- For a claimed job, process_once always builds and submits the payload
derived from the retry-loop result. -/
lemma processOnce_job_submitted (s : WorkerState) (id : String) (payload : JobPayload)
    (env : Nat → ℚ × BackendResp) (sub : SubmitOutcome) :
    (processOnce s (.job id payload) env sub).submitted =
      some ⟨id, (inferRun (staleTimeout (payloadMaxTokens payload)) env).text, 0,
            if (inferRun (staleTimeout (payloadMaxTokens payload)) env).faulted
            then some "faulted" else none⟩ := by
  rw [processOnce]
  split <;> split <;> rfl

/-- C1: the retry-loop wall-clock budget is maxTokens / 2 + 10 seconds
(60 for maxTokens = 100); any loop iteration that observes an elapsed
time beyond the budget aborts the loop at once with the accumulated
text; every attempt the loop does start is started within the budget;
and a claimed job is always submitted with the accumulated text. -/
theorem C1_stale_budget :
    staleTimeout 100 = 60
    ∧ (∀ (mt : Nat), staleTimeout mt = (mt : ℚ) / 2 + 10)
    ∧ (∀ (mt fuel attempts : Nat) (env : Nat → ℚ × BackendResp) (text : String),
        staleTimeout mt < (env attempts).1 →
        inferLoopAux (staleTimeout mt) env (fuel + 1) attempts text =
          ⟨text, false, attempts, true⟩)
    ∧ (∀ (mt k : Nat) (env : Nat → ℚ × BackendResp),
        k < (inferRun (staleTimeout mt) env).attempts → (env k).1 ≤ staleTimeout mt)
    ∧ (∀ (s : WorkerState) (id : String) (payload : JobPayload)
        (env : Nat → ℚ × BackendResp) (sub : SubmitOutcome),
        (processOnce s (.job id payload) env sub).submitted =
          some ⟨id, (inferRun (staleTimeout (payloadMaxTokens payload)) env).text, 0,
                if (inferRun (staleTimeout (payloadMaxTokens payload)) env).faulted
                then some "faulted" else none⟩) := by
  refine ⟨by norm_num [staleTimeout], fun mt => rfl, ?_, ?_, ?_⟩
  · intro mt fuel attempts env text h
    rw [inferLoopAux, if_pos h]
  · intro mt k env hk
    exact inferLoopAux_elapsed_le (staleTimeout mt) env 5 0 "" k (Nat.zero_le k) hk
  · exact processOnce_job_submitted

/-- Witness for C1 at a concrete over-budget trace. -/
theorem C1_stale_budget_witness :
    staleTimeout 100 < ((fun _ : Nat => ((61 : ℚ), BackendResp.status 500)) 0).1 ∧
    inferLoopAux (staleTimeout 100) (fun _ : Nat => ((61 : ℚ), BackendResp.status 500))
      5 0 "" = ⟨"", false, 0, true⟩ :=
  ⟨by norm_num [staleTimeout],
   C1_stale_budget.2.2.1 100 4 0 (fun _ : Nat => ((61 : ℚ), BackendResp.status 500)) ""
     (by norm_num [staleTimeout])⟩

/-- C2: with a backend answering HTTP 500 to every request and elapsed
times that stay within the stale budget, the retry loop makes exactly 5
attempts, accumulates no text and does not fault, and the job is
submitted with empty generation and no "state" field. -/
theorem C2_retry_ceiling (s : WorkerState) (id : String) (payload : JobPayload)
    (env : Nat → ℚ × BackendResp) (sub : SubmitOutcome)
    (h : ∀ i, i < 5 → (env i).1 ≤ staleTimeout (payloadMaxTokens payload) ∧
      (env i).2 = .status 500) :
    inferRun (staleTimeout (payloadMaxTokens payload)) env = ⟨"", false, 5, false⟩ ∧
    (processOnce s (.job id payload) env sub).submitted = some ⟨id, "", 0, none⟩ := by
  have hrun : inferRun (staleTimeout (payloadMaxTokens payload)) env =
      ⟨"", false, 5, false⟩ := by
    have step : ∀ fuel attempts : Nat, attempts < 5 →
        inferLoopAux (staleTimeout (payloadMaxTokens payload)) env (fuel + 1) attempts "" =
          inferLoopAux (staleTimeout (payloadMaxTokens payload)) env fuel (attempts + 1) "" :=
      fun fuel attempts ha =>
        inferLoopAux_step_retryStatus _ env fuel attempts "" 500
          (h attempts ha).1 (h attempts ha).2 (Or.inr le_rfl)
    rw [inferRun, step 4 0 (by omega), step 3 1 (by omega), step 2 2 (by omega),
      step 1 3 (by omega), step 0 4 (by omega), inferLoopAux]
  refine ⟨hrun, ?_⟩
  rw [processOnce_job_submitted, hrun]
  rfl

/-- Witness for C2 on the constant-500, zero-elapsed environment. -/
theorem C2_retry_ceiling_witness :
    (∀ i, i < 5 →
      ((fun _ : Nat => ((0 : ℚ), BackendResp.status 500)) i).1 ≤
        staleTimeout (payloadMaxTokens ⟨none, some 100, none, none, none, none, none⟩) ∧
      ((fun _ : Nat => ((0 : ℚ), BackendResp.status 500)) i).2 = .status 500) ∧
    (processOnce ⟨0, 0⟩ (.job "abc123" ⟨none, some 100, none, none, none, none, none⟩)
        (fun _ : Nat => ((0 : ℚ), BackendResp.status 500)) (.value none)).submitted =
      some ⟨"abc123", "", 0, none⟩ := by
  have h : ∀ i, i < 5 →
      ((fun _ : Nat => ((0 : ℚ), BackendResp.status 500)) i).1 ≤
        staleTimeout (payloadMaxTokens ⟨none, some 100, none, none, none, none, none⟩) ∧
      ((fun _ : Nat => ((0 : ℚ), BackendResp.status 500)) i).2 = .status 500 :=
    fun i _ => ⟨by norm_num [staleTimeout, payloadMaxTokens], rfl⟩
  exact ⟨h, (C2_retry_ceiling ⟨0, 0⟩ "abc123" ⟨none, some 100, none, none, none, none, none⟩
    (fun _ : Nat => ((0 : ℚ), BackendResp.status 500)) (.value none) h).2⟩

/-- C3: on a failed cycle the consecutive-failure counter grows by
exactly one; the cycle in which it reaches 5 performs the single
30-second cooldown sleep and resets it to zero; a successful cycle
resets it to zero with no cooldown; starting below the threshold it is
again below the threshold when the cycle ends. -/
theorem C3_consecutive_failure_cooldown (s : WorkerState) (id : String)
    (payload : JobPayload) (env : Nat → ℚ × BackendResp) (sub : SubmitOutcome) :
    (cycleFailed (inferRun (staleTimeout (payloadMaxTokens payload)) env) sub = true →
      s.consecutiveFailures + 1 < 5 →
      (processOnce s (.job id payload) env sub).state.consecutiveFailures =
        s.consecutiveFailures + 1 ∧
      (processOnce s (.job id payload) env sub).sleeps = [])
    ∧ (cycleFailed (inferRun (staleTimeout (payloadMaxTokens payload)) env) sub = true →
      s.consecutiveFailures + 1 = 5 →
      (processOnce s (.job id payload) env sub).state.consecutiveFailures = 0 ∧
      (processOnce s (.job id payload) env sub).sleeps = [30])
    ∧ (cycleFailed (inferRun (staleTimeout (payloadMaxTokens payload)) env) sub = false →
      (processOnce s (.job id payload) env sub).state.consecutiveFailures = 0 ∧
      (processOnce s (.job id payload) env sub).sleeps = [])
    ∧ (s.consecutiveFailures < 5 →
      (processOnce s (.job id payload) env sub).state.consecutiveFailures < 5) := by
  refine ⟨?_, ?_, ?_, ?_⟩
  · intro hf hlt
    have h5 : ¬ 5 ≤ s.consecutiveFailures + 1 := by omega
    simp [processOnce, hf, h5]
  · intro hf heq
    have h5 : 5 ≤ s.consecutiveFailures + 1 := by omega
    simp [processOnce, hf, h5]
  · intro hf
    simp [processOnce, hf]
  · intro hlt
    by_cases hf : cycleFailed (inferRun (staleTimeout (payloadMaxTokens payload)) env) sub
    · by_cases h5 : 5 ≤ s.consecutiveFailures + 1
      · simp [processOnce, hf, h5]
      · simp [processOnce, hf, h5]; omega
    · simp [processOnce, hf]

/-- Witness for C3: a worker at four consecutive failures processes a
faulted job (backend 422) and ends the cycle with one 30s cooldown and
a reset counter. -/
theorem C3_consecutive_failure_cooldown_witness :
    cycleFailed
        (inferRun (staleTimeout (payloadMaxTokens JobPayload.empty))
          (fun _ : Nat => ((0 : ℚ), BackendResp.status 422))) (.value none) = true ∧
    (4 : Nat) + 1 = 5 ∧
    (processOnce ⟨4, 0⟩ (.job "j1" JobPayload.empty)
        (fun _ : Nat => ((0 : ℚ), BackendResp.status 422))
        (.value none)).state.consecutiveFailures = 0 ∧
    (processOnce ⟨4, 0⟩ (.job "j1" JobPayload.empty)
        (fun _ : Nat => ((0 : ℚ), BackendResp.status 422)) (.value none)).sleeps = [30] := by
  have h50 : staleTimeout (payloadMaxTokens JobPayload.empty) = 50 := by
    norm_num [staleTimeout, payloadMaxTokens, JobPayload.empty]
  have hcf : cycleFailed (inferRun (staleTimeout (payloadMaxTokens JobPayload.empty))
      (fun _ : Nat => ((0 : ℚ), BackendResp.status 422))) (.value none) = true := by
    rw [h50]; decide
  have h := (C3_consecutive_failure_cooldown ⟨4, 0⟩ "j1" JobPayload.empty
    (fun _ : Nat => ((0 : ℚ), BackendResp.status 422)) (.value none)).2.1
    hcf (by decide)
  exact ⟨hcf, by decide, h.1, h.2⟩

/-- C4: for every claimed job, the submit payload carries the claimed
job id unchanged; on the non-faulted path it is exactly
(id, generation, seed 0) with no "state" field, and on the faulted path
the field state = "faulted" is added. -/
theorem C4_claim_submit_roundtrip (s : WorkerState) (id : String)
    (payload : JobPayload) (env : Nat → ℚ × BackendResp) (sub : SubmitOutcome) :
    (processOnce s (.job id payload) env sub).submitted =
      some ⟨id, (inferRun (staleTimeout (payloadMaxTokens payload)) env).text, 0,
            if (inferRun (staleTimeout (payloadMaxTokens payload)) env).faulted
            then some "faulted" else none⟩
    ∧ ((inferRun (staleTimeout (payloadMaxTokens payload)) env).faulted = false →
      (processOnce s (.job id payload) env sub).submitted =
        some ⟨id, (inferRun (staleTimeout (payloadMaxTokens payload)) env).text, 0, none⟩)
    ∧ ((inferRun (staleTimeout (payloadMaxTokens payload)) env).faulted = true →
      (processOnce s (.job id payload) env sub).submitted =
        some ⟨id, (inferRun (staleTimeout (payloadMaxTokens payload)) env).text, 0,
              some "faulted"⟩)
    ∧ (∀ sp, (processOnce s (.job id payload) env sub).submitted = some sp →
      sp.id = id) := by
  refine ⟨processOnce_job_submitted s id payload env sub, ?_, ?_, ?_⟩
  · intro hf
    rw [processOnce_job_submitted, hf]
    rfl
  · intro hf
    rw [processOnce_job_submitted, hf]
    rfl
  · intro sp hsp
    rw [processOnce_job_submitted] at hsp
    cases hsp
    rfl

/-- Witness for C4 on the spec scenario: job "abc123" with prompt
"hello", backend answering 200 with content "Hi there". -/
theorem C4_claim_submit_roundtrip_witness :
    (inferRun (staleTimeout (payloadMaxTokens
        ⟨some "hello", some 50, none, none, none, none, none⟩))
      (fun _ : Nat => ((1 : ℚ), BackendResp.success (some "Hi there")))).faulted = false ∧
    (processOnce ⟨0, 0⟩
        (.job "abc123" ⟨some "hello", some 50, none, none, none, none, none⟩)
        (fun _ : Nat => ((1 : ℚ), BackendResp.success (some "Hi there")))
        (.value (some ⟨some 10⟩))).submitted =
      some ⟨"abc123", "Hi there", 0, none⟩ := by
  have h35 : staleTimeout (payloadMaxTokens
      ⟨some "hello", some 50, none, none, none, none, none⟩) = 35 := by
    norm_num [staleTimeout, payloadMaxTokens]
  have hrun : inferRun (staleTimeout (payloadMaxTokens
        ⟨some "hello", some 50, none, none, none, none, none⟩))
      (fun _ : Nat => ((1 : ℚ), BackendResp.success (some "Hi there"))) =
      ⟨"Hi there", false, 1, false⟩ := by
    rw [h35]; decide
  have h := (C4_claim_submit_roundtrip ⟨0, 0⟩ "abc123"
    ⟨some "hello", some 50, none, none, none, none, none⟩
    (fun _ : Nat => ((1 : ℚ), BackendResp.success (some "Hi there")))
    (.value (some ⟨some 10⟩))).2.1 (by rw [hrun])
  rw [hrun] at h
  exact ⟨by rw [hrun], h⟩

/-- In a list sorted by timestamp, dropping the head entries below the
cutoff leaves only entries at or above the cutoff. -/
lemma dropWhile_cutoff_le (cutoff : ℚ) :
    ∀ l : List (ℚ × ℚ), l.Pairwise (fun a b => a.2 ≤ b.2) →
      ∀ e ∈ l.dropWhile (fun e => decide (e.2 < cutoff)), cutoff ≤ e.2 := by
  intro l
  induction l with
  | nil => intro _ e he; simp [List.dropWhile] at he
  | cons a tl ih =>
    intro hp e he
    rw [List.dropWhile_cons] at he
    simp only [decide_eq_true_eq] at he
    by_cases h : a.2 < cutoff
    · rw [if_pos h] at he
      exact ih (List.pairwise_cons.mp hp).2 e he
    · rw [if_neg h] at he
      rcases List.mem_cons.mp he with rfl | he
      · exact le_of_not_lt h
      · exact le_trans (le_of_not_lt h) ((List.pairwise_cons.mp hp).1 e he)

/-- C5: the two throughput rates are zero when the rolling log has fewer
than two entries or the window measured from the query time back to the
oldest entry is under 10 seconds; otherwise they are the extrapolations
sum(reward) * (3600 / span) and count * (3600 / span); and after a
record_job call no surviving entry is more than 3600 seconds older than
the just-recorded (most recent) timestamp. -/
theorem C5_stats_rates :
    (∀ (s : WorkerStats) (now : ℚ), s.kudosRecord.length < 2 →
      kudosPerHour s now = 0 ∧ jobsPerHour s now = 0)
    ∧ (∀ (s : WorkerStats) (now k oldest : ℚ) (rest : List (ℚ × ℚ)),
      s.kudosRecord = (k, oldest) :: rest → ¬ s.kudosRecord.length < 2 →
      now - oldest < 10 → kudosPerHour s now = 0 ∧ jobsPerHour s now = 0)
    ∧ (∀ (s : WorkerStats) (now k oldest : ℚ) (rest : List (ℚ × ℚ)),
      s.kudosRecord = (k, oldest) :: rest → ¬ s.kudosRecord.length < 2 →
      ¬ now - oldest < 10 →
      kudosPerHour s now = (s.kudosRecord.map Prod.fst).sum * (3600 / (now - oldest)) ∧
      jobsPerHour s now = (s.kudosRecord.length : ℚ) * (3600 / (now - oldest)))
    ∧ (∀ (s : WorkerStats) (now kudos : ℚ) (tokens : Nat),
      s.kudosRecord.Pairwise (fun a b => a.2 ≤ b.2) →
      (∀ e ∈ s.kudosRecord, e.2 ≤ now) →
      ∀ e ∈ (recordJob s now kudos tokens).kudosRecord, now - 3600 ≤ e.2) := by
  refine ⟨?_, ?_, ?_, ?_⟩
  · intro s now h
    rw [kudosPerHour, jobsPerHour, if_pos h, if_pos h]
    exact ⟨rfl, rfl⟩
  · intro s now k oldest rest hrec hlen hper
    rw [hrec] at hlen
    have hlen2 : ¬ rest.length + 1 < 2 := by simpa using hlen
    exact ⟨by simp [kudosPerHour, hlen2, hrec, hper],
           by simp [jobsPerHour, hlen2, hrec, hper]⟩
  · intro s now k oldest rest hrec hlen hper
    rw [hrec] at hlen
    have hlen2 : ¬ rest.length + 1 < 2 := by simpa using hlen
    exact ⟨by simp [kudosPerHour, hlen2, hrec, hper],
           by simp [jobsPerHour, hlen2, hrec, hper]⟩
  · intro s now kudos tokens hsort hle e he
    have hp : (s.kudosRecord ++ [(kudos, now)]).Pairwise (fun a b => a.2 ≤ b.2) := by
      rw [List.pairwise_append]
      refine ⟨hsort, List.pairwise_singleton _ _, ?_⟩
      intro a ha b hb
      rcases List.mem_singleton.mp hb with rfl
      exact hle a ha
    have := dropWhile_cutoff_le (now - 3600) (s.kudosRecord ++ [(kudos, now)]) hp e he
    exact this

/-- Concrete statistics log used to witness the rate formulas. -/
def statsExample : WorkerStats := ⟨[(1, 0), (2, 20)], 2, 0, 0, 3, some 20, 2⟩

/-- Witness for C5 on a two-entry log spanning 30 seconds at query
time. -/
theorem C5_stats_rates_witness :
    statsExample.kudosRecord = (1, 0) :: [(2, 20)] ∧
    (¬ statsExample.kudosRecord.length < 2) ∧
    (¬ (30 : ℚ) - 0 < 10) ∧
    kudosPerHour statsExample 30 =
      (statsExample.kudosRecord.map Prod.fst).sum * (3600 / ((30 : ℚ) - 0)) ∧
    jobsPerHour statsExample 30 =
      (statsExample.kudosRecord.length : ℚ) * (3600 / ((30 : ℚ) - 0)) := by
  have h := C5_stats_rates.2.2.1 statsExample 30 1 0 [(2, 20)] rfl
    (by decide) (by norm_num)
  exact ⟨rfl, by decide, by norm_num, h.1, h.2⟩

/-- The submit loop makes at most `attempts + fuel` POSTs in total. -/
lemma submitResultAux_attempts_le (env : Nat → SubmitAttemptResp) :
    ∀ (fuel attempts : Nat) (sleeps : List ℚ),
      (submitResultAux env fuel attempts sleeps).attempts ≤ attempts + fuel := by
  intro fuel
  induction fuel with
  | zero =>
    intro attempts sleeps
    simp [submitResultAux]
  | succ fuel ih =>
    intro attempts sleeps
    rw [submitResultAux]
    split
    · split
      · show attempts + 1 ≤ attempts + (fuel + 1)
        omega
      · split
        · exact le_trans (ih _ _) (by omega)
        · show attempts + 1 ≤ attempts + (fuel + 1)
          omega
    · split
      · exact le_trans (ih _ _) (by omega)
      · show attempts + 1 ≤ attempts + (fuel + 1)
        omega
    · split
      · exact le_trans (ih _ _) (by omega)
      · show attempts + 1 ≤ attempts + (fuel + 1)
        omega
    · split
      · exact le_trans (ih _ _) (by omega)
      · show attempts + 1 ≤ attempts + (fuel + 1)
        omega

/-- A caught network failure with attempt index below 2 sleeps
3·(attempt+1) seconds and retries. -/
lemma submitResultAux_step_net (env : Nat → SubmitAttemptResp)
    (fuel attempts : Nat) (sleeps : List ℚ)
    (hn : isNetError (env attempts) = true) (h2 : attempts < 2) :
    submitResultAux env (fuel + 1) attempts sleeps =
      submitResultAux env fuel (attempts + 1) (sleeps ++ [3 * ((attempts : ℚ) + 1)]) := by
  cases h : env attempts with
  | http code body => rw [h] at hn; simp [isNetError] at hn
  | connError => rw [submitResultAux, h]; simp [h2]
  | readTimeout => rw [submitResultAux, h]; simp [h2]
  | writeTimeout => rw [submitResultAux, h]; simp [h2]

/-- A caught network failure at attempt index 2 re-raises after the
third POST. -/
lemma submitResultAux_last_net (env : Nat → SubmitAttemptResp)
    (fuel : Nat) (sleeps : List ℚ) (hn : isNetError (env 2) = true) :
    ∃ err, submitResultAux env (fuel + 1) 2 sleeps = ⟨.error err, 3, sleeps⟩ := by
  cases h : env 2 with
  | http code body => rw [h] at hn; simp [isNetError] at hn
  | connError => exact ⟨.connError, by rw [submitResultAux, h]; simp⟩
  | readTimeout => exact ⟨.readTimeout, by rw [submitResultAux, h]; simp⟩
  | writeTimeout => exact ⟨.writeTimeout, by rw [submitResultAux, h]; simp⟩

/-- When no POST ends in a caught network failure, the loop never
sleeps. -/
lemma submitResultAux_sleeps_no_net (env : Nat → SubmitAttemptResp)
    (h : ∀ i, isNetError (env i) = false) :
    ∀ (fuel attempts : Nat) (sleeps : List ℚ),
      (submitResultAux env fuel attempts sleeps).sleeps = sleeps := by
  intro fuel
  induction fuel with
  | zero =>
    intro attempts sleeps
    rw [submitResultAux]
  | succ fuel ih =>
    intro attempts sleeps
    rw [submitResultAux]
    cases hh : env attempts with
    | http code body =>
      by_cases h200 : code = 200
      · simp [h200]
      · by_cases h2xx : 200 ≤ code ∧ code ≤ 299
        · simp [h200, h2xx, ih]
        · simp [h200, h2xx]
    | connError => have := h attempts; rw [hh] at this; simp [isNetError] at this
    | readTimeout => have := h attempts; rw [hh] at this; simp [isNetError] at this
    | writeTimeout => have := h attempts; rw [hh] at this; simp [isNetError] at this

/-- A 2xx response other than 200 passes raise_for_status and simply
falls through to the next loop iteration, with no sleep. -/
lemma submitResultAux_step_2xx (env : Nat → SubmitAttemptResp)
    (fuel attempts : Nat) (sleeps : List ℚ) (code : Nat) (body : RewardInfo)
    (he : env attempts = .http code body) (ha : 200 ≤ code) (hb : code ≤ 299)
    (hc : code ≠ 200) :
    submitResultAux env (fuel + 1) attempts sleeps =
      submitResultAux env fuel (attempts + 1) sleeps := by
  rw [submitResultAux, he]
  simp [hc, ha, hb]

/-- C6: the submit retry loop makes at most 3 POSTs; a non-2xx response
to the first POST is surfaced immediately as an HTTPStatusError, with no
retry and no sleep; one network failure followed by a 200 retries after
a 3s sleep; three network failures exhaust the loop with backoffs 3s
then 6s and re-raise; and backoff sleeps happen only when a POST ends in
a caught network failure. -/
theorem C6_submit_retry_policy :
    (∀ env, (submitResult env).attempts ≤ 3)
    ∧ (∀ (env : Nat → SubmitAttemptResp) (code : Nat) (body : RewardInfo),
      env 0 = .http code body → ¬ (200 ≤ code ∧ code ≤ 299) →
      submitResult env = ⟨.error (.httpStatus code), 1, []⟩)
    ∧ (∀ (env : Nat → SubmitAttemptResp) (body : RewardInfo),
      isNetError (env 0) = true → env 1 = .http 200 body →
      submitResult env = ⟨.ok (some body), 2, [3]⟩)
    ∧ (∀ env, isNetError (env 0) = true → isNetError (env 1) = true →
      isNetError (env 2) = true →
      (submitResult env).attempts = 3 ∧ (submitResult env).sleeps = [3, 6] ∧
      ∃ err, (submitResult env).result = .error err)
    ∧ (∀ env, (∀ i, isNetError (env i) = false) → (submitResult env).sleeps = []) := by
  refine ⟨?_, ?_, ?_, ?_, ?_⟩
  · intro env
    exact le_trans (submitResultAux_attempts_le env 3 0 []) (by omega)
  · intro env code body h0 hc
    have h200 : code ≠ 200 := by omega
    rw [submitResult, show (3 : Nat) = 2 + 1 from rfl, submitResultAux, h0]
    simp [h200, hc]
  · intro env body h0 h1
    rw [submitResult, show (3 : Nat) = 2 + 1 from rfl,
      submitResultAux_step_net env 2 0 [] h0 (by omega),
      show (2 : Nat) = 1 + 1 from rfl, submitResultAux, h1]
    norm_num
  · intro env h0 h1 h2
    rw [submitResult, show (3 : Nat) = 2 + 1 from rfl,
      submitResultAux_step_net env 2 0 [] h0 (by omega),
      show (0 : Nat) + 1 = 1 from rfl,
      show (2 : Nat) = 1 + 1 from rfl,
      submitResultAux_step_net env 1 1 _ h1 (by omega),
      show (1 : Nat) + 1 = 2 from rfl,
      show (1 : Nat) = 0 + 1 from rfl]
    obtain ⟨err, herr⟩ := submitResultAux_last_net env 0
      ([] ++ [3 * (((0 : Nat) : ℚ) + 1)] ++ [3 * (((1 : Nat) : ℚ) + 1)]) h2
    rw [herr]
    refine ⟨rfl, ?_, ⟨err, rfl⟩⟩
    norm_num
  · intro env h
    exact submitResultAux_sleeps_no_net env h 3 0 []

/-- Witness for C6: a 404 on the first POST is surfaced at once. -/
theorem C6_submit_retry_policy_witness :
    ((fun _ : Nat => SubmitAttemptResp.http 404 ⟨none⟩) 0 =
      SubmitAttemptResp.http 404 ⟨none⟩) ∧
    ¬ (200 ≤ 404 ∧ 404 ≤ 299) ∧
    submitResult (fun _ : Nat => SubmitAttemptResp.http 404 ⟨none⟩) =
      ⟨.error (.httpStatus 404), 1, []⟩ :=
  ⟨rfl, by omega,
   C6_submit_retry_policy.2.1 (fun _ : Nat => SubmitAttemptResp.http 404 ⟨none⟩)
     404 ⟨none⟩ rfl (by omega)⟩

/-- C10: when every submit POST gets a successful non-200 status (such
as 201 or 204), raise_for_status does not raise, the loop runs all 3
attempts without sleeping, and submit_result returns None rather than a
reward dict. -/
theorem C10_submit_2xx_non200 (env : Nat → SubmitAttemptResp)
    (h : ∀ i, i < 3 → ∃ code body, env i = .http code body ∧
      200 ≤ code ∧ code ≤ 299 ∧ code ≠ 200) :
    submitResult env = ⟨.ok none, 3, []⟩ := by
  obtain ⟨c0, b0, he0, h0a, h0b, h0c⟩ := h 0 (by omega)
  obtain ⟨c1, b1, he1, h1a, h1b, h1c⟩ := h 1 (by omega)
  obtain ⟨c2, b2, he2, h2a, h2b, h2c⟩ := h 2 (by omega)
  rw [submitResult, show (3 : Nat) = 2 + 1 from rfl,
    submitResultAux_step_2xx env 2 0 [] c0 b0 he0 h0a h0b h0c,
    show (0 : Nat) + 1 = 1 from rfl,
    show (2 : Nat) = 1 + 1 from rfl,
    submitResultAux_step_2xx env 1 1 [] c1 b1 he1 h1a h1b h1c,
    show (1 : Nat) + 1 = 2 from rfl,
    show (1 : Nat) = 0 + 1 from rfl,
    submitResultAux_step_2xx env 0 2 [] c2 b2 he2 h2a h2b h2c,
    show (2 : Nat) + 1 = 3 from rfl,
    submitResultAux]

/-- Witness for C10 on the constant-201 environment. -/
theorem C10_submit_2xx_non200_witness :
    (∀ i, i < 3 → ∃ code body,
      (fun _ : Nat => SubmitAttemptResp.http 201 ⟨none⟩) i = .http code body ∧
      200 ≤ code ∧ code ≤ 299 ∧ code ≠ 200) ∧
    submitResult (fun _ : Nat => SubmitAttemptResp.http 201 ⟨none⟩) =
      ⟨.ok none, 3, []⟩ := by
  have h : ∀ i, i < 3 → ∃ code body,
      (fun _ : Nat => SubmitAttemptResp.http 201 ⟨none⟩) i = .http code body ∧
      200 ≤ code ∧ code ≤ 299 ∧ code ≠ 200 :=
    fun i _ => ⟨201, ⟨none⟩, rfl, by omega, by omega, by omega⟩
  exact ⟨h, C10_submit_2xx_non200 (fun _ : Nat => SubmitAttemptResp.http 201 ⟨none⟩) h⟩

/-- C7: a prompt containing a trigger term (case-insensitively) selects
the AIPG system prompt and prefixes the user message with the fixed
context block followed by "User Query: " and the original prompt; a
prompt with no trigger term gets the generic system prompt and is passed
through unchanged; the trigger test is exactly case-insensitive
containment of one of the fixed terms. -/
theorem C7_aipg_trigger (modelName : String) (payload : JobPayload) :
    (hasAipgTrigger (payload.prompt.getD "") = true →
      (transformPayload modelName payload).messages =
        [⟨"system", aipgSystemPrompt⟩,
         ⟨"user", AIPG_CONTEXT ++ "\n\nUser Query: " ++ payload.prompt.getD ""⟩])
    ∧ (hasAipgTrigger (payload.prompt.getD "") = false →
      (transformPayload modelName payload).messages =
        [⟨"system", genericSystemPrompt⟩, ⟨"user", payload.prompt.getD ""⟩])
    ∧ (hasAipgTrigger (payload.prompt.getD "") = true ↔
      ∃ term ∈ AIPG_TERMS,
        List.IsInfix term.toList (strLower (payload.prompt.getD "")).toList) := by
  refine ⟨?_, ?_, ?_⟩
  · intro h
    simp [transformPayload, h]
  · intro h
    simp [transformPayload, h]
  · simp [hasAipgTrigger, strContains, List.any_eq_true]

/-- Witness for C7 on a prompt mentioning AIPG in upper case. -/
theorem C7_aipg_trigger_witness :
    hasAipgTrigger ((JobPayload.mk (some "Tell me about AIPG") none none none
      none none none).prompt.getD "") = true ∧
    (transformPayload "llama" (JobPayload.mk (some "Tell me about AIPG") none none none
        none none none)).messages =
      [⟨"system", aipgSystemPrompt⟩,
       ⟨"user", AIPG_CONTEXT ++ "\n\nUser Query: " ++ "Tell me about AIPG"⟩] := by
  have ht : hasAipgTrigger ((JobPayload.mk (some "Tell me about AIPG") none none none
      none none none).prompt.getD "") = true := by decide
  exact ⟨ht, (C7_aipg_trigger "llama" (JobPayload.mk (some "Tell me about AIPG")
    none none none none none none)).1 ht⟩

/-- C8: a connection failure during pop increments the pop-failure
counter and sleeps min(10, 2 x the incremented counter) seconds, ending
the cycle unsuccessfully; a successful claim resets the pop-failure
counter to zero. -/
theorem C8_pop_backoff (s : WorkerState) (env : Nat → ℚ × BackendResp)
    (sub : SubmitOutcome) :
    (processOnce s .connError env sub).state =
      ⟨s.consecutiveFailures, s.popFailures + 1⟩ ∧
    (processOnce s .connError env sub).sleeps =
      [min 10 (2 * ((s.popFailures : ℚ) + 1))] ∧
    (processOnce s .connError env sub).processed = false ∧
    (processOnce s .connError env sub).submitted = none ∧
    ∀ (id : String) (payload : JobPayload),
      (processOnce s (.job id payload) env sub).state.popFailures = 0 := by
  refine ⟨rfl, ?_, rfl, rfl, ?_⟩
  · have h : (processOnce s .connError env sub).sleeps =
        [min 10 (2 * (((s.popFailures + 1 : Nat)) : ℚ))] := rfl
    rw [h]
    push_cast
    ring_nf
  · intro id payload
    rw [processOnce]
    split <;> split <;> rfl

/-- C9: the port-8000 probe classifies a server whose /version endpoint
returns a version field as vLLM, without falling through; the SGLang
model-info probe is consulted only if /version fails to identify, and
the generic OpenAI-compatible classification is used only after both
engine-unique probes fail. -/
theorem C9_port8000_disambiguation (url : String) (e : Port8000Env) :
    (versionIdentifies e = true →
      identifyPort8000 url e = some (vllmBackend url e) ∧
      (vllmBackend url e).engine = "vllm")
    ∧ (versionIdentifies e = false → modelInfoIdentifies e = true →
      identifyPort8000 url e = some (sglangBackend url e) ∧
      (sglangBackend url e).engine = "sglang")
    ∧ (versionIdentifies e = false → modelInfoIdentifies e = false →
      identifyPort8000 url e = genericResult url e) := by
  refine ⟨?_, ?_, ?_⟩
  · intro h
    exact ⟨by simp [identifyPort8000, h], rfl⟩
  · intro h1 h2
    exact ⟨by simp [identifyPort8000, h1, h2], rfl⟩
  · intro h1 h2
    simp [identifyPort8000, h1, h2]

/-- Witness for C9 on a mock server answering /version with a version
field. -/
theorem C9_port8000_disambiguation_witness :
    versionIdentifies ⟨some ⟨true, some "0.6.2", none, none⟩, none, none, none⟩ = true ∧
    identifyPort8000 "http://127.0.0.1:8000"
        ⟨some ⟨true, some "0.6.2", none, none⟩, none, none, none⟩ =
      some (vllmBackend "http://127.0.0.1:8000"
        ⟨some ⟨true, some "0.6.2", none, none⟩, none, none, none⟩) ∧
    (vllmBackend "http://127.0.0.1:8000"
        ⟨some ⟨true, some "0.6.2", none, none⟩, none, none, none⟩).engine = "vllm" := by
  have h := (C9_port8000_disambiguation "http://127.0.0.1:8000"
    ⟨some ⟨true, some "0.6.2", none, none⟩, none, none, none⟩).1 rfl
  exact ⟨rfl, h.1, h.2⟩
